import Mathlib

/-!
Verification of the IS-1893 liquefaction comparison engine (`src/app.py`)
against its natural-language specification.

The script computes, for one depth and one earthquake, a factor of safety
against liquefaction under two code revisions ("2016" and "2025").  All
arithmetic in the source is Python float arithmetic on physically scaled
quantities; it is modelled here over the real numbers.  Two embeddings are
given:

* pure real-valued definitions, one per assignment of the source
  (`sigma_v0`, `rd_16`, `csr_16`, ..., `fos_25`), used for the numeric and
  algebraic claims; and
* an error-aware sequential evaluation (`run16`, `run25`, `run_calc`) in
  the `Except` monad, mirroring the module-level block of the source line
  by line, in which every operation that can raise in Python (division by
  zero, square root of a negative, logarithm of a non-positive, fractional
  power of a non-positive base) is modelled as a domain error.  Python
  returns a complex number for a negative base under a fractional power;
  as no real result is produced, this is modelled as the `NonRealPow`
  error.

The input record collects the sidebar inputs of the source with the
source's variable names.
-/

structure Inputs where
  pga : ℝ
  mw : ℝ
  gwt : ℝ
  z : ℝ
  gamma_sat : ℝ
  n_value : ℝ
  fc : ℝ
  fs_exponent : ℝ
  n1_60_assumed : ℝ

/-- `gamma_w = 9.81` (line 106 of the source). -/
def gamma_w : ℝ := 9.81

/-- `Pa = 100.0` (line 107 of the source). -/
def Pa : ℝ := 100.0

/-- `calculate_rd_2016` (source lines 9-17). -/
noncomputable def calculate_rd_2016 (z : ℝ) : ℝ :=
  if z ≤ 9.15 then 1.0 - 0.00765 * z
  else if z ≤ 23 then 1.174 - 0.0267 * z
  else if z ≤ 30 then 0.744 - 0.008 * z
  else 0.5

/-- `calculate_rd_2025` (source lines 20-24). -/
noncomputable def calculate_rd_2025 (z mw : ℝ) : ℝ :=
  Real.exp ((-1.012 - 1.126 * Real.sin (z / 11.73 + 5.133)) +
    (0.106 + 0.118 * Real.sin (z / 11.28 + 5.142)) * mw)

/-- `sigma_v0 = gamma_sat * z` (source line 109). -/
noncomputable def sigma_v0 (inp : Inputs) : ℝ := inp.gamma_sat * inp.z

/-- `sigma_v0_eff` (source lines 110-113). -/
noncomputable def sigma_v0_eff (inp : Inputs) : ℝ :=
  if inp.z > inp.gwt then
    inp.gamma_sat * inp.gwt + (inp.gamma_sat - gamma_w) * (inp.z - inp.gwt)
  else sigma_v0 inp

/-- `rd_16 = calculate_rd_2016(z)` (source line 119). -/
noncomputable def rd_16 (inp : Inputs) : ℝ := calculate_rd_2016 inp.z

/-- `csr_16` (source line 122). -/
noncomputable def csr_16 (inp : Inputs) : ℝ :=
  0.65 * inp.pga * (sigma_v0 inp / sigma_v0_eff inp) * rd_16 inp

/-- `cn_16 = min(1.7, sqrt(Pa / sigma_v0_eff))` (source line 125). -/
noncomputable def cn_16 (inp : Inputs) : ℝ :=
  min 1.7 (Real.sqrt (Pa / sigma_v0_eff inp))

/-- `n1_60_16 = n_value * cn_16` (source line 128). -/
noncomputable def n1_60_16 (inp : Inputs) : ℝ := inp.n_value * cn_16 inp

/-- `alpha_16` of the fines correction (source lines 131-137). -/
noncomputable def alpha_16 (inp : Inputs) : ℝ :=
  if inp.fc ≤ 5 then 0.0
  else if inp.fc < 35 then Real.exp (1.76 - 190 / inp.fc ^ 2)
  else 0.5

/-- `beta_16` of the fines correction (source lines 131-137); `fc ** 1.5`
is a Python float power, modelled as `rpow`. -/
noncomputable def beta_16 (inp : Inputs) : ℝ :=
  if inp.fc ≤ 5 then 1.0
  else if inp.fc < 35 then 0.99 + inp.fc ^ (1.5 : ℝ) / 1000
  else 1.2

/-- `n1_60cs_16 = alpha_16 + beta_16 * n1_60_16` (source line 139). -/
noncomputable def n1_60cs_16 (inp : Inputs) : ℝ :=
  alpha_16 inp + beta_16 inp * n1_60_16 inp

/-- `crr_75_16` (source line 142). -/
noncomputable def crr_75_16 (inp : Inputs) : ℝ :=
  1 / (34 - n1_60cs_16 inp) + n1_60cs_16 inp / 135 +
    50 / ((10 * n1_60cs_16 inp + 45) ^ 2) - 1 / 200

/-- `msf_16 = 10 ** 2.24 / mw ** 2.56` (source line 145). -/
noncomputable def msf_16 (inp : Inputs) : ℝ :=
  (10 : ℝ) ^ (2.24 : ℝ) / inp.mw ^ (2.56 : ℝ)

/-- `k_sigma_16 = (sigma_v0_eff / Pa) ** (fs_exponent - 1)` (source line 146). -/
noncomputable def k_sigma_16 (inp : Inputs) : ℝ :=
  (sigma_v0_eff inp / Pa) ^ (inp.fs_exponent - 1)

/-- `crr_16 = crr_75_16 * msf_16 * k_sigma_16` (source line 149). -/
noncomputable def crr_16 (inp : Inputs) : ℝ :=
  crr_75_16 inp * msf_16 inp * k_sigma_16 inp

/-- `fos_16 = crr_16 / csr_16` (source line 150). -/
noncomputable def fos_16 (inp : Inputs) : ℝ := crr_16 inp / csr_16 inp

/-- `rd_25 = calculate_rd_2025(z, mw)` (source line 156). -/
noncomputable def rd_25 (inp : Inputs) : ℝ := calculate_rd_2025 inp.z inp.mw

/-- `csr_25` (source line 159). -/
noncomputable def csr_25 (inp : Inputs) : ℝ :=
  0.65 * inp.pga * (sigma_v0 inp / sigma_v0_eff inp) * rd_25 inp

/-- `m_25` (source lines 163-166). -/
noncomputable def m_25 (inp : Inputs) : ℝ :=
  if inp.n1_60_assumed > 0 then 0.784 - 0.0768 * Real.sqrt inp.n1_60_assumed
  else 0.784

/-- `cn_25_raw = (Pa / sigma_v0_eff) ** m_25` (source line 172). -/
noncomputable def cn_25_raw (inp : Inputs) : ℝ :=
  (Pa / sigma_v0_eff inp) ^ m_25 inp

/-- `cn_25 = min(1.7, cn_25_raw)` (source line 173). -/
noncomputable def cn_25 (inp : Inputs) : ℝ := min 1.7 (cn_25_raw inp)

/-- `n1_60_25_calc = n_value * cn_25` (source line 177). -/
noncomputable def n1_60_25_calc (inp : Inputs) : ℝ := inp.n_value * cn_25 inp

/-- `delta_n1_25` (source lines 181-182). -/
noncomputable def delta_n1_25 (inp : Inputs) : ℝ :=
  Real.exp (1.63 + 9.7 / (inp.fc + 0.01) - (15.7 / (inp.fc + 0.01)) ^ 2)

/-- `n1_60cs_25 = n1_60_25_calc + delta_n1_25` (source line 186). -/
noncomputable def n1_60cs_25 (inp : Inputs) : ℝ :=
  n1_60_25_calc inp + delta_n1_25 inp

/-- The `c_sigma_25` block (source lines 191-198) as a function of the
`n1_60cs_25` value it reads. -/
noncomputable def c_sigma_val (x : ℝ) : ℝ :=
  if x ≥ 0 then
    if |18.9 - 2.55 * Real.sqrt x| < 0.0001 then 0.0
    else 1.0 / (18.9 - 2.55 * Real.sqrt x)
  else 0.0

/-- `c_sigma_25` (source lines 191-198). -/
noncomputable def c_sigma_25 (inp : Inputs) : ℝ := c_sigma_val (n1_60cs_25 inp)

/-- `k_sigma_25` (source lines 203-206). -/
noncomputable def k_sigma_25 (inp : Inputs) : ℝ :=
  if c_sigma_25 inp < 0.3 then
    1.0 - c_sigma_25 inp * Real.log (sigma_v0_eff inp / Pa)
  else 1.0 - 0.3 * Real.log (sigma_v0_eff inp / Pa)

/-- `crr_75_25` (source lines 210-216). -/
noncomputable def crr_75_25 (inp : Inputs) : ℝ :=
  Real.exp (-2.8 + n1_60cs_25 inp / 14.1 + (n1_60cs_25 inp / 126) ^ 2 -
    (n1_60cs_25 inp / 23.6) ^ 3 + (n1_60cs_25 inp / 25.4) ^ 4)

/-- `msf_max_25 = 1.09 * (n1_60cs_25 / 31.5) ** 2` (source line 220). -/
noncomputable def msf_max_25 (inp : Inputs) : ℝ :=
  1.09 * (n1_60cs_25 inp / 31.5) ^ 2

/-- `msf_25` (source lines 224-225). -/
noncomputable def msf_25 (inp : Inputs) : ℝ :=
  1 + (msf_max_25 inp - 1) * (8.64 * Real.exp (-0.25 * inp.mw) - 1.325)

/-- `crr_25 = crr_75_25 * msf_25 * k_sigma_25` (source line 229). -/
noncomputable def crr_25 (inp : Inputs) : ℝ :=
  crr_75_25 inp * msf_25 inp * k_sigma_25 inp

/-- `fos_25 = crr_25 / csr_25` (source line 232). -/
noncomputable def fos_25 (inp : Inputs) : ℝ := crr_25 inp / csr_25 inp

/-- Safety bands of the FOS display (source lines 246-251 and 267-272). -/
inductive SafetyClassification where
  | Unsafe
  | Marginal
  | Safe
deriving DecidableEq

/-- The FOS banding used identically for both methods (source lines
246-251 for `fos_16` and 267-272 for `fos_25`). -/
noncomputable def classify (fos : ℝ) : SafetyClassification :=
  if fos < 1.0 then SafetyClassification.Unsafe
  else if fos < 1.2 then SafetyClassification.Marginal
  else SafetyClassification.Safe

/-- The section-6 default inputs of the sidebar (source lines 79-95). -/
noncomputable def defaultInputs : Inputs :=
  ⟨0.162, 6.50, 7.00, 7.45, 19.00, 14, 65.15, 0.65, 37.0⟩

/-- Domain errors of the Python arithmetic in the calculate block. -/
inductive CalcError where
  | ZeroDivision
  | SqrtNeg
  | LogNonPos
  | NonRealPow
deriving DecidableEq

/-- Python float division: raises `ZeroDivisionError` on a zero divisor. -/
noncomputable def fdiv (a b : ℝ) : Except CalcError ℝ :=
  if b = 0 then Except.error CalcError.ZeroDivision else Except.ok (a / b)

/-- Python `math.sqrt`: raises on a negative operand. -/
noncomputable def msqrt (x : ℝ) : Except CalcError ℝ :=
  if x < 0 then Except.error CalcError.SqrtNeg else Except.ok (Real.sqrt x)

/-- Python `math.log`: raises on a non-positive operand. -/
noncomputable def mlog (x : ℝ) : Except CalcError ℝ :=
  if x ≤ 0 then Except.error CalcError.LogNonPos else Except.ok (Real.log x)

/-- Python `**` with a float (non-integral) exponent: `0.0` to a negative
power raises `ZeroDivisionError`; a negative base yields a complex, hence
non-real, result, modelled as the `NonRealPow` error; otherwise the real
power is returned. -/
noncomputable def fpow (x y : ℝ) : Except CalcError ℝ :=
  if x = 0 ∧ y < 0 then Except.error CalcError.ZeroDivision
  else if x < 0 then Except.error CalcError.NonRealPow
  else Except.ok (x ^ y)

/-- An `Except` computation that succeeded. -/
def isOkE {α : Type} (e : Except CalcError α) : Prop := ∃ v, e = Except.ok v

/-- The values the source displays for the 2016 column. -/
structure Out16 where
  csr : ℝ
  crr : ℝ
  fos : ℝ

/-- The values the source displays for the 2025 column. -/
structure Out25 where
  csr : ℝ
  crr : ℝ
  fos : ℝ

/-- The fines-correction branch of the 2016 chain (source lines 131-137),
with its Python error points (`190 / fc ** 2` and `fc ** 1.5`). -/
noncomputable def fines16 (fc : ℝ) : Except CalcError (ℝ × ℝ) :=
  if fc ≤ 5 then Except.ok (0.0, 1.0)
  else if fc < 35 then
    (fdiv 190 (fc ^ 2)).bind fun q =>
      (fpow fc 1.5).bind fun p =>
        Except.ok (Real.exp (1.76 - q), 0.99 + p / 1000)
  else Except.ok (0.5, 1.2)

/-- The `m_25` step (source lines 163-166) with the square root's
Python error point. -/
noncomputable def m_25E (inp : Inputs) : Except CalcError ℝ :=
  if inp.n1_60_assumed > 0 then
    (msqrt inp.n1_60_assumed).map fun s => 0.784 - 0.0768 * s
  else Except.ok 0.784

/-- The `c_sigma_25` block (source lines 191-198) with its Python error
points, as a function of the `n1_60cs_25` value it reads. -/
noncomputable def c_sigma_E (x : ℝ) : Except CalcError ℝ :=
  if x ≥ 0 then
    (msqrt x).bind fun s =>
      if |18.9 - 2.55 * s| < 0.0001 then Except.ok 0.0
      else fdiv 1.0 (18.9 - 2.55 * s)
  else Except.ok 0.0

/-- The `k_sigma_25` block (source lines 203-206) with the logarithm's
Python error point. -/
noncomputable def k_sigma_E (cs se : ℝ) : Except CalcError ℝ :=
  if cs < 0.3 then (mlog (se / Pa)).map fun l => 1.0 - cs * l
  else (mlog (se / Pa)).map fun l => 1.0 - 0.3 * l

/-- The 2016 half of the calculate block (source lines 106-150) evaluated
sequentially with Python's error semantics. -/
noncomputable def run16 (inp : Inputs) : Except CalcError Out16 :=
  (fdiv (sigma_v0 inp) (sigma_v0_eff inp)).bind fun ratio =>
    let csr := 0.65 * inp.pga * ratio * calculate_rd_2016 inp.z
    (fdiv Pa (sigma_v0_eff inp)).bind fun pr =>
      (msqrt pr).bind fun sq =>
        let n1 := inp.n_value * min 1.7 sq
        (fines16 inp.fc).bind fun ab =>
          let x := ab.1 + ab.2 * n1
          (fdiv 1 (34 - x)).bind fun t1 =>
            (fdiv 50 ((10 * x + 45) ^ 2)).bind fun t3 =>
              let crr75 := t1 + x / 135 + t3 - 1 / 200
              (fpow 10 2.24).bind fun num =>
                (fpow inp.mw 2.56).bind fun den =>
                  (fdiv num den).bind fun msf =>
                    (fpow (sigma_v0_eff inp / Pa) (inp.fs_exponent - 1)).bind fun ks =>
                      let crr := crr75 * msf * ks
                      (fdiv crr csr).map fun fos => ⟨csr, crr, fos⟩

/-- The 2025 half of the calculate block (source lines 156-232) evaluated
sequentially with Python's error semantics. -/
noncomputable def run25 (inp : Inputs) : Except CalcError Out25 :=
  (fdiv (sigma_v0 inp) (sigma_v0_eff inp)).bind fun ratio =>
    let csr := 0.65 * inp.pga * ratio * calculate_rd_2025 inp.z inp.mw
    (m_25E inp).bind fun m =>
      (fdiv Pa (sigma_v0_eff inp)).bind fun pr =>
        (fpow pr m).bind fun cnraw =>
          let n1 := inp.n_value * min 1.7 cnraw
          (fdiv 9.7 (inp.fc + 0.01)).bind fun q1 =>
            (fdiv 15.7 (inp.fc + 0.01)).bind fun q2 =>
              let x := n1 + Real.exp (1.63 + q1 - q2 ^ 2)
              (c_sigma_E x).bind fun cs =>
                (k_sigma_E cs (sigma_v0_eff inp)).bind fun ks =>
                  let crr75 := Real.exp (-2.8 + x / 14.1 + (x / 126) ^ 2 -
                    (x / 23.6) ^ 3 + (x / 25.4) ^ 4)
                  let msf := 1 + (1.09 * (x / 31.5) ^ 2 - 1) *
                    (8.64 * Real.exp (-0.25 * inp.mw) - 1.325)
                  let crr := crr75 * msf * ks
                  (fdiv crr csr).map fun fos => ⟨csr, crr, fos⟩

/-- The whole calculate block (source lines 102-232): the 2016 half runs
first, then the 2025 half; an uncaught exception in the former aborts the
latter, as in the module-level Python script. -/
noncomputable def run_calc (inp : Inputs) : Except CalcError (Out16 × Out25) :=
  (run16 inp).bind fun o16 => (run25 inp).map fun o25 => (o16, o25)

/-- Modelled from the spec, for the refinement comparison of claim C3 only:
the section-4.2 piecewise depth-reduction formula in the spec's words
(the `z ≤ 30` region). -/
noncomputable def rd2016_specFormula (z : ℝ) : ℝ :=
  if z ≤ 9.15 then 1.0 - 0.00765 * z
  else if z ≤ 23 then 1.174 - 0.0267 * z
  else 0.744 - 0.008 * z

/-- Positivity of the 2016 depth-reduction factor for positive depth. -/
theorem rd_2016_pos (z : ℝ) (hz : 0 < z) : 0 < calculate_rd_2016 z := by
  unfold calculate_rd_2016
  split_ifs <;> linarith

/-- C3: for every depth `0 < z ≤ 30` the 2016 depth-reduction factor equals
the spec's piecewise formula, reproduces the exact formula values at the
breakpoints `z = 9.15` and `z = 23`, and lies in `(0, 1]`. -/
theorem rd_2016_piecewise (z : ℝ) (h0 : 0 < z) (h30 : z ≤ 30) :
    calculate_rd_2016 z = rd2016_specFormula z ∧
    0 < calculate_rd_2016 z ∧ calculate_rd_2016 z ≤ 1 ∧
    calculate_rd_2016 9.15 = 1.0 - 0.00765 * 9.15 ∧
    calculate_rd_2016 23 = 1.174 - 0.0267 * 23 := by
  have hb1 : calculate_rd_2016 9.15 = 1.0 - 0.00765 * 9.15 := by
    unfold calculate_rd_2016; norm_num
  have hb2 : calculate_rd_2016 23 = 1.174 - 0.0267 * 23 := by
    unfold calculate_rd_2016; norm_num
  refine ⟨?_, ?_, ?_, hb1, hb2⟩ <;>
    simp only [calculate_rd_2016, rd2016_specFormula] <;>
    split_ifs <;> first | rfl | linarith

/-- A concrete instance of `rd_2016_piecewise` at the default depth. -/
theorem rd_2016_piecewise_witness :
    calculate_rd_2016 7.45 = rd2016_specFormula 7.45 ∧
    0 < calculate_rd_2016 7.45 ∧ calculate_rd_2016 7.45 ≤ 1 ∧
    calculate_rd_2016 9.15 = 1.0 - 0.00765 * 9.15 ∧
    calculate_rd_2016 23 = 1.174 - 0.0267 * 23 :=
  rd_2016_piecewise 7.45 (by norm_num) (by norm_num)

/-- C7: classification is a function of `fos` alone with the half-open
bands Unsafe `[.., 1)`, Marginal `[1, 1.2)`, Safe `[1.2, ..)`, including
the four stated boundary probes. -/
theorem classify_bands (fos : ℝ) :
    (fos < 1.0 → classify fos = SafetyClassification.Unsafe) ∧
    (1.0 ≤ fos → fos < 1.2 → classify fos = SafetyClassification.Marginal) ∧
    (1.2 ≤ fos → classify fos = SafetyClassification.Safe) ∧
    classify 0.999999 = SafetyClassification.Unsafe ∧
    classify 1.0 = SafetyClassification.Marginal ∧
    classify 1.199999 = SafetyClassification.Marginal ∧
    classify 1.2 = SafetyClassification.Safe := by
  refine ⟨?_, ?_, ?_, ?_, ?_, ?_, ?_⟩ <;> simp only [classify] <;> intros <;>
    split_ifs <;> first | rfl | linarith

/-- A concrete instance of `classify_bands`: a factor of safety of 2 is
Safe. -/
theorem classify_bands_witness : classify 2 = SafetyClassification.Safe :=
  (classify_bands 2).2.2.1 (by norm_num)

/-- Inputs with `saturatedUnitWeight = 1 kN/m³` (positive, but below
water's 9.81), depth 5 m, groundwater at the surface. -/
noncomputable def inpC2 : Inputs := ⟨0.162, 6.5, 0, 5, 1, 14, 65.15, 0.65, 37⟩

/-- C2 fails as stated: `inpC2` satisfies the claim's hypotheses
(`depth > 0`, `saturatedUnitWeight > 0`, `groundwaterDepth ≥ 0`), yet the
effective vertical stress is `-44.05`, not strictly positive. -/
theorem stress_invariant_cex :
    0 < inpC2.z ∧ 0 < inpC2.gamma_sat ∧ 0 ≤ inpC2.gwt ∧
    sigma_v0_eff inpC2 = -44.05 ∧ ¬ 0 < sigma_v0_eff inpC2 := by
  have h : sigma_v0_eff inpC2 = -44.05 := by
    norm_num [sigma_v0_eff, sigma_v0, inpC2, gamma_w]
  exact ⟨by norm_num [inpC2], by norm_num [inpC2], by norm_num [inpC2], h,
    by rw [h]; norm_num⟩

/-- C2 (amended): when additionally `saturatedUnitWeight` exceeds the unit
weight of water (9.81), the derived stress state satisfies
`0 < effectiveVerticalStress ≤ totalVerticalStress`, with equality exactly
when `depth ≤ groundwaterDepth`. -/
theorem stress_invariant (inp : Inputs) (hz : 0 < inp.z)
    (hg : gamma_w < inp.gamma_sat) (hw : 0 ≤ inp.gwt) :
    0 < sigma_v0_eff inp ∧ sigma_v0_eff inp ≤ sigma_v0 inp ∧
    (sigma_v0_eff inp = sigma_v0 inp ↔ inp.z ≤ inp.gwt) := by
  unfold sigma_v0_eff sigma_v0 gamma_w at *
  split_ifs with h
  · refine ⟨by nlinarith, by nlinarith, ?_, fun hle => absurd h (not_lt.mpr hle)⟩
    intro he
    exfalso
    nlinarith
  · exact ⟨by nlinarith [le_of_not_lt h], le_refl _,
      iff_of_true rfl (le_of_not_lt h)⟩

/-- A concrete instance of `stress_invariant` at the default inputs. -/
theorem stress_invariant_witness :
    0 < sigma_v0_eff defaultInputs ∧
    sigma_v0_eff defaultInputs ≤ sigma_v0 defaultInputs ∧
    (sigma_v0_eff defaultInputs = sigma_v0 defaultInputs ↔
      defaultInputs.z ≤ defaultInputs.gwt) :=
  stress_invariant defaultInputs (by norm_num [defaultInputs])
    (by norm_num [defaultInputs, gamma_w]) (by norm_num [defaultInputs])

/-- Inputs whose effective vertical stress is exactly the reference
pressure 100 kPa (`gamma_sat = 20`, `z = gwt = 5`). -/
noncomputable def inpPa : Inputs := ⟨0.162, 6.5, 5, 5, 20, 14, 65.15, 0.65, 37⟩

/-- C10: when the effective vertical stress equals the reference pressure
100 kPa, both overburden correction factors are exactly 1, for every
`finesExponentFs` and whichever `c_sigma` branch is taken. -/
theorem k_sigma_unity (inp : Inputs) (h : sigma_v0_eff inp = 100) :
    k_sigma_16 inp = 1 ∧ k_sigma_25 inp = 1 := by
  constructor
  · unfold k_sigma_16 Pa
    rw [h, show (100:ℝ)/100.0 = 1 by norm_num, Real.one_rpow]
  · unfold k_sigma_25 Pa
    rw [h, show (100:ℝ)/100.0 = 1 by norm_num, Real.log_one]
    split_ifs <;> norm_num

/-- A concrete instance of `k_sigma_unity` at `inpPa`. -/
theorem k_sigma_unity_witness : k_sigma_16 inpPa = 1 ∧ k_sigma_25 inpPa = 1 :=
  k_sigma_unity inpPa (by norm_num [sigma_v0_eff, sigma_v0, inpPa])

/-- C9: for nonnegative blow count and fines content and positive effective
stress, the 2025 fines correction is strictly positive, hence the corrected
blow count `n1_60cs_25` is strictly positive and the fallback branch for
`n1_60cs_25 < 0` in the `c_sigma` computation is unreachable. -/
theorem delta_n1_25_pos (inp : Inputs) (hn : 0 ≤ inp.n_value)
    (hfc : 0 ≤ inp.fc) (he : 0 < sigma_v0_eff inp) :
    0 < delta_n1_25 inp ∧ 0 < n1_60cs_25 inp ∧ ¬ n1_60cs_25 inp < 0 := by
  have hd : 0 < delta_n1_25 inp := Real.exp_pos _
  have hcn : 0 ≤ cn_25 inp := by
    unfold cn_25 cn_25_raw
    exact le_min (by norm_num)
      (Real.rpow_nonneg (div_nonneg (by norm_num [Pa]) he.le) _)
  have hx : 0 < n1_60cs_25 inp := by
    unfold n1_60cs_25 n1_60_25_calc
    nlinarith [mul_nonneg hn hcn]
  exact ⟨hd, hx, not_lt.mpr hx.le⟩

/-- A concrete instance of `delta_n1_25_pos` at `inpPa`. -/
theorem delta_n1_25_pos_witness :
    0 < delta_n1_25 inpPa ∧ 0 < n1_60cs_25 inpPa ∧ ¬ n1_60cs_25 inpPa < 0 :=
  delta_n1_25_pos inpPa (by norm_num [inpPa]) (by norm_num [inpPa])
    (by norm_num [sigma_v0_eff, sigma_v0, inpPa])

/-- C5: in the 2025 pipeline's `c_sigma` block, for `(N1)60cs ≥ 0` a
near-singular denominator (`|18.9 - 2.55·√x| < 1e-4`) yields exactly 0 and
no error, otherwise the reciprocal is returned; a negative `(N1)60cs`
yields 0. -/
theorem c_sigma_val_spec (x : ℝ) :
    (0 ≤ x → |18.9 - 2.55 * Real.sqrt x| < 0.0001 → c_sigma_val x = 0) ∧
    (0 ≤ x → ¬ |18.9 - 2.55 * Real.sqrt x| < 0.0001 →
      c_sigma_val x = 1 / (18.9 - 2.55 * Real.sqrt x)) ∧
    (x < 0 → c_sigma_val x = 0) := by
  unfold c_sigma_val
  refine ⟨fun h1 h2 => ?_, fun h1 h2 => ?_, fun h1 => ?_⟩ <;>
    split_ifs <;> first | rfl | linarith

/-- Concrete instances of `c_sigma_val_spec`: the exactly singular point
`x = (126/17)² = 15876/289` gives 0; `x = 0` gives `1/18.9`; `x = -1`
gives 0. -/
theorem c_sigma_val_spec_witness :
    c_sigma_val (15876/289) = 0 ∧ c_sigma_val 0 = 1 / 18.9 ∧
    c_sigma_val (-1) = 0 := by
  have hsq : Real.sqrt (15876/289) = 126/17 := by
    rw [show (15876/289 : ℝ) = (126/17)^2 by norm_num]
    exact Real.sqrt_sq (by norm_num)
  refine ⟨(c_sigma_val_spec (15876/289)).1 (by norm_num) ?_, ?_,
    (c_sigma_val_spec (-1)).2.2 (by norm_num)⟩
  · rw [hsq, show (18.9:ℝ) - 2.55 * (126/17) = 0 by norm_num, abs_zero]
    norm_num
  · have h2 : ¬ |18.9 - 2.55 * Real.sqrt 0| < 0.0001 := by
      rw [Real.sqrt_zero, show (18.9:ℝ) - 2.55 * 0 = 18.9 by norm_num,
        abs_of_pos (by norm_num : (0:ℝ) < 18.9)]
      norm_num
    have h := (c_sigma_val_spec 0).2.1 (le_refl 0) h2
    rw [h, Real.sqrt_zero]
    norm_num

/-- C8: with everything else fixed (valid stress state), `csr` is strictly
increasing in `pga` for both the 2016 and the 2025 method. -/
theorem csr_mono_pga (inp : Inputs) (p q : ℝ) (hz : 0 < inp.z)
    (hg : 0 < inp.gamma_sat) (he : 0 < sigma_v0_eff inp) (hpq : p < q) :
    csr_16 { inp with pga := p } < csr_16 { inp with pga := q } ∧
    csr_25 { inp with pga := p } < csr_25 { inp with pga := q } := by
  have hT : 0 < sigma_v0 inp := mul_pos hg hz
  have hR : 0 < sigma_v0 inp / sigma_v0_eff inp := div_pos hT he
  have h16 : 0 < rd_16 inp := rd_2016_pos inp.z hz
  have h25 : 0 < rd_25 inp := Real.exp_pos _
  constructor
  · show 0.65 * p * (sigma_v0 inp / sigma_v0_eff inp) * rd_16 inp <
      0.65 * q * (sigma_v0 inp / sigma_v0_eff inp) * rd_16 inp
    nlinarith [mul_pos (sub_pos.mpr hpq)
      (mul_pos (mul_pos (by norm_num : (0:ℝ) < 0.65) hR) h16)]
  · show 0.65 * p * (sigma_v0 inp / sigma_v0_eff inp) * rd_25 inp <
      0.65 * q * (sigma_v0 inp / sigma_v0_eff inp) * rd_25 inp
    nlinarith [mul_pos (sub_pos.mpr hpq)
      (mul_pos (mul_pos (by norm_num : (0:ℝ) < 0.65) hR) h25)]

/-- A concrete instance of `csr_mono_pga` at `inpPa` with `pga` raised
from 0.1 to 0.2. -/
theorem csr_mono_pga_witness :
    csr_16 { inpPa with pga := 0.1 } < csr_16 { inpPa with pga := 0.2 } ∧
    csr_25 { inpPa with pga := 0.1 } < csr_25 { inpPa with pga := 0.2 } :=
  csr_mono_pga inpPa 0.1 0.2 (by norm_num [inpPa]) (by norm_num [inpPa])
    (by norm_num [sigma_v0_eff, sigma_v0, inpPa]) (by norm_num)

/-- `fdiv` succeeds on a nonzero divisor. -/
theorem fdiv_ok {b : ℝ} (a : ℝ) (h : b ≠ 0) : fdiv a b = Except.ok (a / b) :=
  if_neg h

/-- `msqrt` succeeds on a nonnegative operand. -/
theorem msqrt_ok {x : ℝ} (h : 0 ≤ x) : msqrt x = Except.ok (Real.sqrt x) :=
  if_neg (not_lt.mpr h)

/-- `mlog` succeeds on a positive operand. -/
theorem mlog_ok {x : ℝ} (h : 0 < x) : mlog x = Except.ok (Real.log x) :=
  if_neg (not_le.mpr h)

/-- `fpow` succeeds on a positive base. -/
theorem fpow_ok {x : ℝ} (y : ℝ) (h : 0 < x) : fpow x y = Except.ok (x ^ y) := by
  unfold fpow
  rw [if_neg (fun hc => h.ne' hc.1), if_neg (not_lt.mpr h.le)]

/-- Binding a computation known to succeed. -/
theorem isOkE_bind_ok {α β : Type} {e : Except CalcError α} {a : α}
    (h1 : e = Except.ok a) (f : α → Except CalcError β) (h2 : isOkE (f a)) :
    isOkE (e.bind f) := by
  rw [h1]
  exact h2

/-- Binding a computation that succeeds with an unknown value. -/
theorem isOkE_bind_all {α β : Type} {e : Except CalcError α}
    (f : α → Except CalcError β) (h1 : isOkE e) (h2 : ∀ a, isOkE (f a)) :
    isOkE (e.bind f) := by
  obtain ⟨v, hv⟩ := h1
  rw [hv]
  exact h2 v

/-- Mapping over a computation known to succeed. -/
theorem isOkE_map_ok {α β : Type} {e : Except CalcError α} {a : α}
    (h1 : e = Except.ok a) (f : α → β) : isOkE (e.map f) := by
  rw [h1]
  exact ⟨f a, rfl⟩

/-- The `c_sigma` block never raises: both the negative-operand branch and
the near-singular denominator are guarded. -/
theorem c_sigma_E_isOk (x : ℝ) : isOkE (c_sigma_E x) := by
  unfold c_sigma_E
  split_ifs with h1
  · rw [msqrt_ok (by linarith : (0:ℝ) ≤ x)]
    refine isOkE_bind_ok rfl _ ?_
    split_ifs with h2
    · exact ⟨_, rfl⟩
    · exact ⟨_, fdiv_ok _ (fun h0 => h2 (by rw [h0, abs_zero]; norm_num))⟩
  · exact ⟨_, rfl⟩

/-- The `k_sigma` block succeeds whenever the effective stress is
positive. -/
theorem k_sigma_E_isOk (cs se : ℝ) (h : 0 < se) : isOkE (k_sigma_E cs se) := by
  unfold k_sigma_E
  have hl : mlog (se / Pa) = Except.ok (Real.log (se / Pa)) :=
    mlog_ok (div_pos h (by norm_num [Pa]))
  split_ifs <;> exact isOkE_map_ok hl _

/-- The 2025 half of the block succeeds whenever the effective stress is
positive, the total stress, the PGA and `fc + 0.01` are nonzero — in
particular for every (even negative) `n1_60_assumed`. -/
theorem run25_ok (inp : Inputs) (he : 0 < sigma_v0_eff inp)
    (hsv : sigma_v0 inp ≠ 0) (hpga : inp.pga ≠ 0) (hfc : inp.fc + 0.01 ≠ 0) :
    isOkE (run25 inp) := by
  obtain ⟨mv, hmv⟩ : ∃ mv, m_25E inp = Except.ok mv := by
    unfold m_25E
    split_ifs with h
    · rw [msqrt_ok h.le]
      exact ⟨_, rfl⟩
    · exact ⟨_, rfl⟩
  have hcsr : 0.65 * inp.pga * (sigma_v0 inp / sigma_v0_eff inp) *
      calculate_rd_2025 inp.z inp.mw ≠ 0 :=
    mul_ne_zero (mul_ne_zero (mul_ne_zero (by norm_num) hpga)
      (div_ne_zero hsv he.ne'))
      (by unfold calculate_rd_2025; exact (Real.exp_pos _).ne')
  unfold run25
  refine isOkE_bind_ok (fdiv_ok _ he.ne') _ ?_
  refine isOkE_bind_ok hmv _ ?_
  refine isOkE_bind_ok (fdiv_ok _ he.ne') _ ?_
  refine isOkE_bind_ok (fpow_ok mv (div_pos (by norm_num [Pa]) he)) _ ?_
  refine isOkE_bind_ok (fdiv_ok _ hfc) _ ?_
  refine isOkE_bind_ok (fdiv_ok _ hfc) _ ?_
  refine isOkE_bind_all _ (c_sigma_E_isOk _) fun cs => ?_
  refine isOkE_bind_all _ (k_sigma_E_isOk cs _ he) fun ks => ?_
  exact isOkE_map_ok (fdiv_ok _ hcsr) _

/-- Inputs with a negative 2025 assumed reference blow count
(`n1_60_assumed = -1`) and an otherwise benign stress state. -/
noncomputable def inpC4 : Inputs := ⟨0.162, 6.5, 5, 5, 20, 14, 0, 0.65, -1⟩

/-- C4 fails as stated: with `assumedReferenceN160 = -1 < 0` the guard
takes the else branch, the whole 2025 half completes without any domain
error, and `m = 0.784`. -/
theorem m_neg_no_error_cex :
    inpC4.n1_60_assumed < 0 ∧ m_25 inpC4 = 0.784 ∧
    m_25E inpC4 = Except.ok 0.784 ∧ isOkE (run25 inpC4) := by
  have h : inpC4.n1_60_assumed < 0 := by norm_num [inpC4]
  refine ⟨h, ?_, ?_, ?_⟩
  · unfold m_25
    rw [if_neg (not_lt.mpr h.le)]
  · unfold m_25E
    rw [if_neg (not_lt.mpr h.le)]
  · exact run25_ok inpC4 (by norm_num [sigma_v0_eff, sigma_v0, inpC4])
      (by norm_num [sigma_v0, inpC4]) (by norm_num [inpC4])
      (by norm_num [inpC4])

/-- C4 (amended): for every input with `assumedReferenceN160 < 0` the
stress-exponent step takes the documented else branch: the square root is
never applied to the negative operand, no domain error arises from this
step, and `m = 0.784`. -/
theorem m_25_neg (inp : Inputs) (h : inp.n1_60_assumed < 0) :
    m_25 inp = 0.784 ∧ m_25E inp = Except.ok 0.784 := by
  constructor
  · unfold m_25
    rw [if_neg (not_lt.mpr h.le)]
  · unfold m_25E
    rw [if_neg (not_lt.mpr h.le)]

/-- A concrete instance of `m_25_neg` at `inpC4`. -/
theorem m_25_neg_witness :
    m_25 inpC4 = 0.784 ∧ m_25E inpC4 = Except.ok 0.784 :=
  m_25_neg inpC4 (by norm_num [inpC4])

/-- Inputs driving the 2016 resistance curve into its singularity:
`n_value = 34`, `fc = 0` and effective stress exactly 100 kPa give
`(N1)60cs = 34`, a zero denominator in `crr_75_16`. -/
noncomputable def inpC6 : Inputs := ⟨0.162, 6.5, 5, 5, 20, 34, 0, 0.65, 37⟩

/-- At `inpC6` the sequential 2016 half aborts with a division by zero at
the `crr_75_16` step. -/
theorem run16_inpC6_err : run16 inpC6 = Except.error CalcError.ZeroDivision := by
  have he : sigma_v0_eff inpC6 = 100 := by
    norm_num [sigma_v0_eff, sigma_v0, inpC6]
  have hv : sigma_v0 inpC6 = 100 := by norm_num [sigma_v0, inpC6]
  unfold run16
  rw [he, hv]
  norm_num [fdiv, msqrt, fines16, Except.bind, inpC6, Pa, min_def,
    Real.sqrt_one]

/-- C6 fails as stated: at `inpC6` the 2016 pipeline hits a domain error
(the CRR singularity at `(N1)60cs = 34`), and because the script evaluates
the block sequentially with no exception handling the whole evaluation
aborts — even though the 2025 half alone would complete. -/
theorem pipelines_cex :
    run_calc inpC6 = Except.error CalcError.ZeroDivision ∧
    isOkE (run25 inpC6) := by
  constructor
  · unfold run_calc
    rw [run16_inpC6_err]
    rfl
  · exact run25_ok inpC6 (by norm_num [sigma_v0_eff, sigma_v0, inpC6])
      (by norm_num [sigma_v0, inpC6]) (by norm_num [inpC6])
      (by norm_num [inpC6])

/-- C6 (amended): the two pipelines share no data — the 2016 half ignores
the 2025-only input `n1_60_assumed`, and whenever the sequential block
completes, its two halves are exactly the independently evaluated
per-pipeline results — but the block is sequential with no exception
handling, so an error in the 2016 half aborts the whole evaluation and the
2025 half never completes. -/
theorem pipelines_seq (inp : Inputs) (a : ℝ) :
    run16 { inp with n1_60_assumed := a } = run16 inp ∧
    (∀ p, run_calc inp = Except.ok p →
      run16 inp = Except.ok p.1 ∧ run25 inp = Except.ok p.2) ∧
    (∀ e, run16 inp = Except.error e → run_calc inp = Except.error e) := by
  refine ⟨rfl, ?_, ?_⟩
  · intro p hp
    unfold run_calc at hp
    cases h16 : run16 inp with
    | error e =>
      rw [h16] at hp
      simp [Except.bind] at hp
    | ok o16 =>
      rw [h16] at hp
      simp only [Except.bind] at hp
      cases h25 : run25 inp with
      | error e =>
        rw [h25] at hp
        simp [Except.map] at hp
      | ok o25 =>
        rw [h25] at hp
        simp only [Except.map] at hp
        cases hp
        exact ⟨rfl, rfl⟩
  · intro e h16
    unfold run_calc
    rw [h16]
    rfl

/-- A concrete instance of `pipelines_seq`: the 2016 division by zero at
`inpC6` aborts the whole sequential evaluation. -/
theorem pipelines_seq_witness :
    run_calc inpC6 = Except.error CalcError.ZeroDivision :=
  (pipelines_seq inpC6 0).2.2 CalcError.ZeroDivision run16_inpC6_err

/-- Total vertical stress at the default inputs. -/
theorem default_sv : sigma_v0 defaultInputs = 141.55 := by
  norm_num [sigma_v0, defaultInputs]

/-- Effective vertical stress at the default inputs
(`19·7 + (19 − 9.81)·0.45`). -/
theorem default_eff : sigma_v0_eff defaultInputs = 137.1355 := by
  norm_num [sigma_v0_eff, sigma_v0, defaultInputs, gamma_w]

/-- 2016 depth-reduction factor at the default depth 7.45 m. -/
theorem default_rd16 : rd_16 defaultInputs = 0.9430075 := by
  norm_num [rd_16, calculate_rd_2016, defaultInputs]

/-- Rational bracketing of `√(100/137.1355)`. -/
theorem default_sqrt_bounds :
    0.85393 < Real.sqrt (Pa / 137.1355) ∧
    Real.sqrt (Pa / 137.1355) < 0.85394 := by
  constructor
  · rw [Real.lt_sqrt (by norm_num : (0:ℝ) ≤ 0.85393)]
    norm_num [Pa]
  · rw [Real.sqrt_lt' (by norm_num : (0:ℝ) < 0.85394)]
    norm_num [Pa]

/-- Bracketing of the corrected blow count `(N1)60cs` at the default
inputs (`0.5 + 1.2·14·√(100/137.1355)`). -/
theorem default_x_bounds :
    14.846024 < n1_60cs_16 defaultInputs ∧
    n1_60cs_16 defaultInputs < 14.846192 := by
  obtain ⟨h1, h2⟩ := default_sqrt_bounds
  have hcn : cn_16 defaultInputs = Real.sqrt (Pa / 137.1355) := by
    unfold cn_16
    rw [default_eff]
    exact min_eq_right (by linarith)
  have halpha : alpha_16 defaultInputs = 0.5 := by
    norm_num [alpha_16, defaultInputs]
  have hbeta : beta_16 defaultInputs = 1.2 := by
    norm_num [beta_16, defaultInputs]
  have hn : defaultInputs.n_value = 14 := by norm_num [defaultInputs]
  unfold n1_60cs_16 n1_60_16
  rw [halpha, hbeta, hcn, hn]
  constructor <;> linarith

/-- Rational bracketing of `10^2.24` via 25th powers
(`2.24·25 = 56`). -/
theorem pow_A_bounds :
    173.73 < (10:ℝ) ^ (2.24:ℝ) ∧ (10:ℝ) ^ (2.24:ℝ) < 173.83 := by
  have key : ((10:ℝ) ^ (2.24:ℝ)) ^ (25:ℕ) = 10 ^ (56:ℕ) := by
    rw [← Real.rpow_natCast ((10:ℝ) ^ (2.24:ℝ)) 25,
      ← Real.rpow_mul (by norm_num : (0:ℝ) ≤ 10),
      show (2.24:ℝ) * ((25:ℕ):ℝ) = ((56:ℕ):ℝ) by norm_num,
      Real.rpow_natCast]
  constructor
  · apply lt_of_pow_lt_pow_left 25 (Real.rpow_nonneg (by norm_num) _)
    rw [key]
    norm_num
  · apply lt_of_pow_lt_pow_left 25 (by norm_num : (0:ℝ) ≤ 173.83)
    rw [key]
    norm_num

/-- Rational bracketing of `6.5^2.56` via 25th powers
(`2.56·25 = 64`). -/
theorem pow_B_bounds :
    120.47 < (6.5:ℝ) ^ (2.56:ℝ) ∧ (6.5:ℝ) ^ (2.56:ℝ) < 120.57 := by
  have key : ((6.5:ℝ) ^ (2.56:ℝ)) ^ (25:ℕ) = 6.5 ^ (64:ℕ) := by
    rw [← Real.rpow_natCast ((6.5:ℝ) ^ (2.56:ℝ)) 25,
      ← Real.rpow_mul (by norm_num : (0:ℝ) ≤ 6.5),
      show (2.56:ℝ) * ((25:ℕ):ℝ) = ((64:ℕ):ℝ) by norm_num,
      Real.rpow_natCast]
  constructor
  · apply lt_of_pow_lt_pow_left 25 (Real.rpow_nonneg (by norm_num) _)
    rw [key]
    norm_num
  · apply lt_of_pow_lt_pow_left 25 (by norm_num : (0:ℝ) ≤ 120.57)
    rw [key]
    norm_num

/-- Rational bracketing of `1.371355^0.35` via 20th powers
(`0.35·20 = 7`). -/
theorem pow_K_bounds :
    1.11683 < (1.371355:ℝ) ^ (0.35:ℝ) ∧
    (1.371355:ℝ) ^ (0.35:ℝ) < 1.11691 := by
  have key : ((1.371355:ℝ) ^ (0.35:ℝ)) ^ (20:ℕ) = 1.371355 ^ (7:ℕ) := by
    rw [← Real.rpow_natCast ((1.371355:ℝ) ^ (0.35:ℝ)) 20,
      ← Real.rpow_mul (by norm_num : (0:ℝ) ≤ 1.371355),
      show (0.35:ℝ) * ((20:ℕ):ℝ) = ((7:ℕ):ℝ) by norm_num,
      Real.rpow_natCast]
  constructor
  · apply lt_of_pow_lt_pow_left 20 (Real.rpow_nonneg (by norm_num) _)
    rw [key]
    norm_num
  · apply lt_of_pow_lt_pow_left 20 (by norm_num : (0:ℝ) ≤ 1.11691)
    rw [key]
    norm_num

/-- Bracketing of the 2016 magnitude scaling factor at `Mw = 6.5`. -/
theorem default_msf_bounds :
    1.4408 < msf_16 defaultInputs ∧ msf_16 defaultInputs < 1.4430 := by
  obtain ⟨hA1, hA2⟩ := pow_A_bounds
  obtain ⟨hB1, hB2⟩ := pow_B_bounds
  have hmw : defaultInputs.mw = 6.5 := by norm_num [defaultInputs]
  have hBpos : (0:ℝ) < (6.5:ℝ) ^ (2.56:ℝ) :=
    Real.rpow_pos_of_pos (by norm_num) _
  unfold msf_16
  rw [hmw]
  constructor
  · rw [lt_div_iff hBpos]
    nlinarith
  · rw [div_lt_iff hBpos]
    nlinarith

/-- Bracketing of the 2016 overburden correction factor
`(1.371355)^(0.65−1)` at the default inputs. -/
theorem default_ksigma_bounds :
    0.89531 < k_sigma_16 defaultInputs ∧ k_sigma_16 defaultInputs < 0.89540 := by
  obtain ⟨hK1, hK2⟩ := pow_K_bounds
  have hKpos : (0:ℝ) < (1.371355:ℝ) ^ (0.35:ℝ) :=
    Real.rpow_pos_of_pos (by norm_num) _
  have hrw : k_sigma_16 defaultInputs = ((1.371355:ℝ) ^ (0.35:ℝ))⁻¹ := by
    unfold k_sigma_16 Pa
    rw [default_eff, show (137.1355:ℝ) / 100.0 = 1.371355 by norm_num,
      show defaultInputs.fs_exponent - 1 = -(0.35:ℝ) by norm_num [defaultInputs],
      Real.rpow_neg (by norm_num)]
  rw [hrw, inv_eq_one_div]
  have hl := one_div_lt_one_div_of_lt hKpos hK2
  have hu := one_div_lt_one_div_of_lt (by norm_num : (0:ℝ) < 1.11683) hK1
  have c1 : (0.89531:ℝ) < 1 / 1.11691 := by norm_num
  have c2 : (1:ℝ) / 1.11683 < 0.89540 := by norm_num
  constructor <;> linarith

/-- Bracketing of the 2016 base resistance curve at the default inputs. -/
theorem default_crr75_bounds :
    0.158513 < crr_75_16 defaultInputs ∧ crr_75_16 defaultInputs < 0.158518 := by
  obtain ⟨hx1, hx2⟩ := default_x_bounds
  unfold crr_75_16
  set x := n1_60cs_16 defaultInputs with hxdef
  have h34 : (0:ℝ) < 34 - x := by linarith
  have ht1l : (1:ℝ) / 19.153976 < 1 / (34 - x) :=
    one_div_lt_one_div_of_lt h34 (by linarith)
  have ht1u : 1 / (34 - x) < (1:ℝ) / 19.153808 :=
    one_div_lt_one_div_of_lt (by norm_num) (by linarith)
  have hsql : (193.46024:ℝ) ^ 2 < (10 * x + 45) ^ 2 :=
    pow_lt_pow_left (by linarith) (by norm_num) (by norm_num)
  have hsqu : ((10:ℝ) * x + 45) ^ 2 < (193.46192:ℝ) ^ 2 :=
    pow_lt_pow_left (by linarith) (by linarith) (by norm_num)
  have ht3l : (50:ℝ) / (193.46192:ℝ) ^ 2 < 50 / ((10 * x + 45) ^ 2) :=
    div_lt_div_of_pos_left (by norm_num) (by positivity) hsqu
  have ht3u : 50 / ((10 * x + 45) ^ 2) < (50:ℝ) / (193.46024:ℝ) ^ 2 :=
    div_lt_div_of_pos_left (by norm_num) (by norm_num) hsql
  have c1 : (0.158513:ℝ) <
      1 / 19.153976 + 14.846024 / 135 + 50 / (193.46192:ℝ) ^ 2 - 1 / 200 := by
    norm_num
  have c2 : 1 / 19.153808 + 14.846192 / 135 + (50:ℝ) / (193.46024:ℝ) ^ 2
      - 1 / 200 < 0.158518 := by
    norm_num
  constructor
  · have hx135 : (14.846024:ℝ) / 135 < x / 135 := by linarith
    linarith
  · have hx135 : x / 135 < (14.846192:ℝ) / 135 := by linarith
    linarith

/-- Bracketing of the final 2016 CRR at the default inputs. -/
theorem default_crr16_bounds :
    0.20446 < crr_16 defaultInputs ∧ crr_16 defaultInputs < 0.20483 := by
  obtain ⟨hc1, hc2⟩ := default_crr75_bounds
  obtain ⟨hm1, hm2⟩ := default_msf_bounds
  obtain ⟨hk1, hk2⟩ := default_ksigma_bounds
  unfold crr_16
  have hab_l : (0.158513:ℝ) * 1.4408 <
      crr_75_16 defaultInputs * msf_16 defaultInputs :=
    mul_lt_mul'' hc1 hm1 (by norm_num) (by norm_num)
  have hab_u : crr_75_16 defaultInputs * msf_16 defaultInputs <
      (0.158518:ℝ) * 1.4430 :=
    mul_lt_mul'' hc2 hm2 (by linarith) (by linarith)
  have habc_l : (0.158513:ℝ) * 1.4408 * 0.89531 <
      crr_75_16 defaultInputs * msf_16 defaultInputs * k_sigma_16 defaultInputs :=
    mul_lt_mul'' hab_l hk1 (by norm_num) (by norm_num)
  have habc_u : crr_75_16 defaultInputs * msf_16 defaultInputs *
      k_sigma_16 defaultInputs < (0.158518:ℝ) * 1.4430 * 0.89540 :=
    mul_lt_mul'' hab_u hk2 (by nlinarith) (by linarith)
  constructor
  · have : (0.20446:ℝ) < 0.158513 * 1.4408 * 0.89531 := by norm_num
    linarith
  · have : (0.158518:ℝ) * 1.4430 * 0.89540 < 0.20483 := by norm_num
    linarith

/-- Rational bracketing of the 2016 CSR at the default inputs. -/
theorem default_csr_bounds :
    0.1024949 < csr_16 defaultInputs ∧ csr_16 defaultInputs < 0.1024956 := by
  unfold csr_16
  rw [default_sv, default_eff, default_rd16]
  norm_num [defaultInputs]

/-- Bracketing of the 2016 factor of safety at the default inputs. -/
theorem default_fos_bounds :
    1.99 < fos_16 defaultInputs ∧ fos_16 defaultInputs < 2.01 := by
  obtain ⟨hcs1, hcs2⟩ := default_csr_bounds
  obtain ⟨hcr1, hcr2⟩ := default_crr16_bounds
  unfold fos_16
  have hp : 0 < csr_16 defaultInputs := by linarith
  constructor
  · rw [lt_div_iff hp]
    nlinarith
  · rw [div_lt_iff hp]
    nlinarith

/-- C1: at the section-6 default inputs the stress calculator returns
`sigma_v0` within 0.01 of 141.55 and `sigma_v0_eff` within 0.01 of 137.14,
and the 2016 pipeline returns `rd` within 0.01 of 0.943, `csr` within 0.01
of 0.102, `(N1)60cs` within 0.01 of 14.85, `crr` within 0.01 of 0.205 and
`fos` within 0.01 of 2.00, classified Safe. -/
theorem golden_scenario :
    |sigma_v0 defaultInputs - 141.55| ≤ 0.01 ∧
    |sigma_v0_eff defaultInputs - 137.14| ≤ 0.01 ∧
    |rd_16 defaultInputs - 0.943| ≤ 0.01 ∧
    |csr_16 defaultInputs - 0.102| ≤ 0.01 ∧
    |n1_60cs_16 defaultInputs - 14.85| ≤ 0.01 ∧
    |crr_16 defaultInputs - 0.205| ≤ 0.01 ∧
    |fos_16 defaultInputs - 2.00| ≤ 0.01 ∧
    classify (fos_16 defaultInputs) = SafetyClassification.Safe := by
  obtain ⟨hx1, hx2⟩ := default_x_bounds
  obtain ⟨hcr1, hcr2⟩ := default_crr16_bounds
  obtain ⟨hf1, hf2⟩ := default_fos_bounds
  obtain ⟨hcs1, hcs2⟩ := default_csr_bounds
  refine ⟨?_, ?_, ?_, ?_, ?_, ?_, ?_, ?_⟩
  · rw [default_sv, abs_sub_le_iff]
    norm_num
  · rw [default_eff, abs_sub_le_iff]
    norm_num
  · rw [default_rd16, abs_sub_le_iff]
    norm_num
  · rw [abs_sub_le_iff]
    constructor <;> linarith
  · rw [abs_sub_le_iff]
    constructor <;> linarith
  · rw [abs_sub_le_iff]
    constructor <;> linarith
  · rw [abs_sub_le_iff]
    constructor <;> linarith
  · have h1 : ¬ fos_16 defaultInputs < 1.0 := not_lt.mpr (by linarith)
    have h2 : ¬ fos_16 defaultInputs < 1.2 := not_lt.mpr (by linarith)
    unfold classify
    rw [if_neg h1, if_neg h2]
